import Mathlib

/-!
Verification of the answer-sheet image aligner
(`src/js/answer-sheet-aligner.js`) against its specification.

The JavaScript class `AnswerSheetAligner` is shallowly embedded here:
pure helpers become Lean functions over exact rational coordinates
(JS numbers are modelled by `ℚ`), the mutable session (`this.*` fields)
becomes an explicit `AlignerState` threaded through the entry points,
JS exceptions become `Except String`, and the OpenCV.js primitives the
code calls (`cv.imread`, `cv.threshold`, `cv.findContours`,
`cv.HoughLinesP`, ...) are modelled as oracle inputs supplying the data
the JavaScript reads back from them (line segments, contours with areas
and polygon approximations), so that the control flow of the repository
code itself is what is verified.
-/

/-- A 2-D point `{x, y}` as used throughout `answer-sheet-aligner.js`
(JS number coordinates, modelled exactly by `ℚ`). -/
structure Point where
  x : ℚ
  y : ℚ
deriving DecidableEq, Repr

/-- The `uniquePoints.some(...)` test inside `removeDuplicatePoints`
(`answer-sheet-aligner.js` lines 603-606): an incoming point counts as a
duplicate of the kept list iff some kept point has both coordinate
deltas strictly below `threshold`. -/
def isDuplicate (uniquePoints : List Point) (p : Point) (threshold : ℚ) : Bool :=
  uniquePoints.any (fun q =>
    decide (|q.x - p.x| < threshold) && decide (|q.y - p.y| < threshold))

/-- One iteration of the `points.forEach` loop in `removeDuplicatePoints`
(lines 602-611): push the point onto the kept list unless it duplicates
an already-kept point. -/
def dedupStep (threshold : ℚ) (uniquePoints : List Point) (p : Point) : List Point :=
  if isDuplicate uniquePoints p threshold then uniquePoints else uniquePoints ++ [p]

/-- `removeDuplicatePoints(points, threshold)`
(`answer-sheet-aligner.js` lines 599-614): left-to-right fold of
`dedupStep` starting from the empty kept list. -/
def removeDuplicatePoints (points : List Point) (threshold : ℚ) : List Point :=
  points.foldl (dedupStep threshold) []

theorem isDuplicate_iff (u : List Point) (p : Point) (t : ℚ) :
    isDuplicate u p t = true ↔ ∃ q ∈ u, |q.x - p.x| < t ∧ |q.y - p.y| < t := by
  simp [isDuplicate]

theorem removeDuplicatePoints_foldl_sublist (t : ℚ) :
    ∀ (ps acc : List Point), ∃ r,
      ps.foldl (dedupStep t) acc = acc ++ r ∧ r.Sublist ps := by
  intro ps
  induction ps with
  | nil => intro acc; exact ⟨[], by simp, List.Sublist.refl _⟩
  | cons p ps ih =>
      intro acc
      by_cases h : isDuplicate acc p t
      · obtain ⟨r, hr, hs⟩ := ih acc
        refine ⟨r, ?_, hs.cons p⟩
        simpa [dedupStep, h] using hr
      · obtain ⟨r, hr, hs⟩ := ih (acc ++ [p])
        refine ⟨p :: r, ?_, hs.cons₂ p⟩
        simp only [List.foldl_cons, dedupStep, h, if_neg, Bool.false_eq_true,
          not_false_iff]
        simpa [List.append_assoc] using hr

/-- Claim C6: with the default threshold 10, an incoming point merges with an
already-kept point iff both coordinate deltas are strictly below 10 (so two
points 9px apart on both axes merge, while two points exactly 10px apart on an
axis are both kept), and the output preserves the order of first occurrence
(it is a sublist of the input). -/
theorem removeDuplicatePoints_merge_rule :
    (∀ (u : List Point) (p : Point),
        dedupStep 10 u p =
          if ∃ q ∈ u, |q.x - p.x| < 10 ∧ |q.y - p.y| < 10 then u else u ++ [p]) ∧
    (∀ ps : List Point, (removeDuplicatePoints ps 10).Sublist ps) ∧
    removeDuplicatePoints [⟨0, 0⟩, ⟨9, 9⟩] 10 = [⟨0, 0⟩] ∧
    removeDuplicatePoints [⟨0, 0⟩, ⟨10, 0⟩] 10 = [⟨0, 0⟩, ⟨10, 0⟩] := by
  refine ⟨?_, ?_, by norm_num [removeDuplicatePoints, dedupStep, isDuplicate, abs], by norm_num [removeDuplicatePoints, dedupStep, isDuplicate, abs]⟩
  · intro u p
    by_cases h : ∃ q ∈ u, |q.x - p.x| < 10 ∧ |q.y - p.y| < 10
    · rw [if_pos h, dedupStep, if_pos ((isDuplicate_iff u p 10).mpr h)]
    · rw [if_neg h, dedupStep,
        if_neg (fun hb => h ((isDuplicate_iff u p 10).mp hb))]
  · intro ps
    obtain ⟨r, hr, hs⟩ := removeDuplicatePoints_foldl_sublist 10 ps []
    simpa [removeDuplicatePoints, hr] using hs

/-- The `for` loop of `selectBestBinary`
(`answer-sheet-aligner.js` lines 313-350): walk the candidate list keeping
`(bestBinary, bestScore)`, updating only on a strictly larger score
(`score > bestScore`).  `bestScore` starts at `-1`, hence the `Int` type. -/
def selectLoop {α : Type} (score : α → Nat) :
    List α → Option α × Int → Option α × Int
  | [], acc => acc
  | c :: rest, acc =>
      if acc.2 < (score c : Int) then selectLoop score rest (some c, (score c : Int))
      else selectLoop score rest acc

/-- `selectBestBinary(binaryResults, gray)`
(`answer-sheet-aligner.js` lines 303-364): run the scoring loop from
`(null, -1)` and return `bestBinary.clone()`, falling back to
`binaryResults[0].clone()` when no candidate was picked (`.clone()` is
identity in this value model; the per-candidate score is the count of
external contours with area above 10, supplied here as the `score`
oracle). -/
def selectBestBinary {α : Type} (cands : List α) (score : α → Nat) : Option α :=
  match (selectLoop score cands (none, -1)).1 with
  | some b => some b
  | none => cands.head?

theorem selectLoop_stay {α : Type} (score : α → Nat) :
    ∀ (l : List α) (acc : Option α × Int),
      (∀ c ∈ l, (score c : Int) ≤ acc.2) → selectLoop score l acc = acc := by
  intro l
  induction l with
  | nil => intro acc _; rfl
  | cons c rest ih =>
      intro acc h
      have hc : (score c : Int) ≤ acc.2 := h c (List.mem_cons_self c rest)
      have : ¬ acc.2 < (score c : Int) := not_lt.mpr hc
      simp only [selectLoop, this, if_neg, not_false_iff]
      exact ih acc (fun d hd => h d (List.mem_cons_of_mem c hd))

/-- Behaviour of the scoring loop when some element strictly beats the
incoming best score: the loop returns the earliest maximal element among
those, together with its score. -/
theorem selectLoop_first_max {α : Type} (score : α → Nat) :
    ∀ (l : List α) (b : Option α) (s : Int),
      (∃ c ∈ l, s < (score c : Int)) →
      ∃ (i : Nat) (h : i < l.length),
        selectLoop score l (b, s) =
          (some (l.get ⟨i, h⟩), (score (l.get ⟨i, h⟩) : Int)) ∧
        s < (score (l.get ⟨i, h⟩) : Int) ∧
        (∀ (j : Nat) (hj : j < l.length),
            score (l.get ⟨j, hj⟩) ≤ score (l.get ⟨i, h⟩)) ∧
        (∀ (j : Nat) (hj : j < i),
            score (l.get ⟨j, Nat.lt_trans hj h⟩) < score (l.get ⟨i, h⟩)) := by
  intro l
  induction l with
  | nil => intro b s h; simp at h
  | cons c rest ih =>
      intro b s hex
      by_cases hc : s < (score c : Int)
      · -- the head improves on s; the loop continues from (some c, score c)
        by_cases hrest : ∃ d ∈ rest, (score c : Int) < (score d : Int)
        · obtain ⟨i, hi, hrun, hgt, hmax, hfirst⟩ := ih (some c) (score c : Int) hrest
          refine ⟨i + 1, Nat.succ_lt_succ hi, ?_, ?_, ?_, ?_⟩
          · simpa [selectLoop, hc] using hrun
          · exact lt_trans hc hgt
          · intro j hj
            cases j with
            | zero =>
                simp only [List.get]
                have := le_of_lt hgt
                exact_mod_cast this
            | succ j =>
                have hj' : j < rest.length := Nat.lt_of_succ_lt_succ hj
                simpa using hmax j hj'
          · intro j hj
            cases j with
            | zero =>
                simp only [List.get]
                exact_mod_cast hgt
            | succ j =>
                have hj' : j < i := Nat.lt_of_succ_lt_succ hj
                simpa using hfirst j hj'
        · -- nothing in the tail beats score c: the loop keeps the head
          push_neg at hrest
          refine ⟨0, Nat.succ_pos _, ?_, ?_, ?_, ?_⟩
          · simp only [selectLoop, hc, if_pos]
            exact selectLoop_stay score rest (some c, (score c : Int))
              (fun d hd => hrest d hd)
          · simpa using hc
          · intro j hj
            cases j with
            | zero => simp
            | succ j =>
                have hj' : j < rest.length := Nat.lt_of_succ_lt_succ hj
                have := hrest (rest.get ⟨j, hj'⟩) (rest.get_mem _ _)
                simpa using (by exact_mod_cast this : score (rest.get ⟨j, hj'⟩) ≤ score c)
          · intro j hj; exact absurd hj (Nat.not_lt_zero j)
      · -- the head does not improve on s; the witness lies in the tail
        have hrest : ∃ d ∈ rest, s < (score d : Int) := by
          obtain ⟨d, hd, hds⟩ := hex
          rcases List.mem_cons.mp hd with rfl | hd'
          · exact absurd hds hc
          · exact ⟨d, hd', hds⟩
        obtain ⟨i, hi, hrun, hgt, hmax, hfirst⟩ := ih b s hrest
        refine ⟨i + 1, Nat.succ_lt_succ hi, ?_, hgt, ?_, ?_⟩
        · simpa [selectLoop, hc] using hrun
        · intro j hj
          cases j with
          | zero =>
              simp only [List.get]
              have hcs : (score c : Int) ≤ s := not_lt.mp hc
              have : (score c : Int) < (score (rest.get ⟨i, hi⟩) : Int) :=
                lt_of_le_of_lt hcs hgt
              exact le_of_lt (by exact_mod_cast this)
          | succ j =>
              have hj' : j < rest.length := Nat.lt_of_succ_lt_succ hj
              simpa using hmax j hj'
        · intro j hj
          cases j with
          | zero =>
              simp only [List.get]
              have hcs : (score c : Int) ≤ s := not_lt.mp hc
              have : (score c : Int) < (score (rest.get ⟨i, hi⟩) : Int) :=
                lt_of_le_of_lt hcs hgt
              exact_mod_cast this
          | succ j =>
              have hj' : j < i := Nat.lt_of_succ_lt_succ hj
              simpa using hfirst j hj'

/-- Claim C5: on a non-empty candidate list, the binarization selection step
returns the candidate whose valid-contour count is maximal, the earliest one
winning ties; in particular counts {2, 5, 3} select the second candidate. -/
theorem selectBestBinary_first_argmax :
    (∀ {α : Type} (cands : List α) (score : α → Nat), cands ≠ [] →
        ∃ (i : Nat) (h : i < cands.length),
          selectBestBinary cands score = some (cands.get ⟨i, h⟩) ∧
          (∀ (j : Nat) (hj : j < cands.length),
              score (cands.get ⟨j, hj⟩) ≤ score (cands.get ⟨i, h⟩)) ∧
          (∀ (j : Nat) (hj : j < i),
              score (cands.get ⟨j, Nat.lt_trans hj h⟩) < score (cands.get ⟨i, h⟩))) ∧
    selectBestBinary [0, 1, 2] (fun i => List.getD [2, 5, 3] i 0) = some 1 := by
  constructor
  · intro α cands score hne
    have hex : ∃ c ∈ cands, (-1 : Int) < (score c : Int) := by
      obtain ⟨c, rest, rfl⟩ := List.exists_cons_of_ne_nil hne
      refine ⟨c, List.mem_cons_self c rest, ?_⟩
      have : (0 : Int) ≤ (score c : Int) := Int.ofNat_nonneg _
      omega
    obtain ⟨i, hi, hrun, _, hmax, hfirst⟩ :=
      selectLoop_first_max score cands none (-1) hex
    refine ⟨i, hi, ?_, hmax, hfirst⟩
    simp [selectBestBinary, hrun]
  · decide

/-- One line segment `(x1, y1, x2, y2)` as read back from
`cv.HoughLinesP` output (`answer-sheet-aligner.js` lines 389-397). -/
structure Segment where
  x1 : ℚ
  y1 : ℚ
  x2 : ℚ
  y2 : ℚ
deriving DecidableEq, Repr

/-- The data the JavaScript reads from one external contour: its
`cv.contourArea` and the vertex list produced by `cv.approxPolyDP` at
epsilon = 2% of the `cv.arcLength` perimeter.  These are opaque OpenCV
results, so they enter the model as oracle data. -/
structure ContourData where
  area : ℚ
  approx : List Point
deriving DecidableEq, Repr

/-- Result record of `findLinesAndPoints` (lines 436-439 and 443). -/
structure DetectResult where
  success : Bool
  points : List Point
deriving DecidableEq, Repr

/-- Endpoint collection from the Hough segments
(`answer-sheet-aligner.js` lines 388-397): both endpoints of every
segment, in order. -/
def linePoints (segs : List Segment) : List Point :=
  segs.foldl (fun acc s => acc ++ [⟨s.x1, s.y1⟩, ⟨s.x2, s.y2⟩]) []

/-- Contour-corner collection (lines 406-427): for every external contour
with area above 100 whose 2%-perimeter approximation has exactly 4
vertices, emit those 4 vertices. -/
def contourCornerPoints (conts : List ContourData) : List Point :=
  conts.foldl
    (fun acc c =>
      if 100 < c.area ∧ c.approx.length = 4 then acc ++ c.approx else acc) []

/-- Body of `findLinesAndPoints(binaryImage)`
(`answer-sheet-aligner.js` lines 371-440): contour corners are pushed into
`points`, Hough endpoints into `linePoints`, the two are concatenated in
that order, deduplicated with threshold 10, and `success` is
`uniquePoints.length >= 4`. -/
def findLinesAndPoints (segs : List Segment) (conts : List ContourData) :
    DetectResult :=
  let points := contourCornerPoints conts
  let lps := linePoints segs
  let uniquePoints := removeDuplicatePoints (points ++ lps) 10
  { success := decide (4 ≤ uniquePoints.length), points := uniquePoints }

/-- `findLinesAndPoints` with its surrounding `try`/`catch`
(lines 372 and 441-444): if any internal OpenCV call faults, the whole
detection collapses to `{success: false, points: []}` instead of raising. -/
def findLinesAndPointsRun
    (input : Except String (List Segment × List ContourData)) : DetectResult :=
  match input with
  | Except.error _ => { success := false, points := [] }
  | Except.ok sc => findLinesAndPoints sc.1 sc.2

/-- Claim C4: detection succeeds iff the merged, deduplicated point set
(contour corners plus Hough endpoints) has at least 4 points, and any
internal fault yields `{success: false, points: []}` rather than an
exception. -/
theorem findLinesAndPoints_success_iff :
    (∀ (segs : List Segment) (conts : List ContourData),
        (findLinesAndPoints segs conts).success = true ↔
          4 ≤ (removeDuplicatePoints
                (contourCornerPoints conts ++ linePoints segs) 10).length) ∧
    (∀ msg : String,
        findLinesAndPointsRun (Except.error msg) =
          { success := false, points := [] }) := by
  constructor
  · intro segs conts
    simp [findLinesAndPoints]
  · intro msg
    rfl

/-- Native OpenCV allocations made inside `fallbackAlignment`
(`answer-sheet-aligner.js` lines 452-537), used to track which of them
are still live at each return. -/
inductive NativeRes where
  | fbGray
  | fbBinary
  | fbContours
  | fbHierarchy
  | fbApprox
  | fbM
  | fbAligned
deriving DecidableEq, Repr

/-- Result record of `fallbackAlignment` (lines 531 and 535).  The
`alignedImage` field carries the four approximation corners the
perspective warp is computed from (the warp itself is modelled in the
homography section below). -/
structure FbResult where
  success : Bool
  alignedImage : Option (List Point)
  error : Option String
deriving DecidableEq, Repr

/-- The max-area scan of `fallbackAlignment` (lines 467-478):
`maxArea` starts at 0, `maxContour` at null, and both update only on a
strictly larger area (`area > maxArea`). -/
def maxContourLoop :
    List ContourData → ℚ → Option ContourData → ℚ × Option ContourData
  | [], m, mc => (m, mc)
  | c :: rest, m, mc =>
      if m < c.area then maxContourLoop rest c.area (some c)
      else maxContourLoop rest m mc

/-- Error message thrown at line 481 of `answer-sheet-aligner.js`. -/
def noFrameMsg : String := "未找到有效的答题卡轮廓"

/-- Error message thrown at line 489 of `answer-sheet-aligner.js`. -/
def notQuadMsg : String := "答题卡轮廓不是四边形"

/-- Modelled from OpenCV: `cv.cvtColor(src, dst, cv.COLOR_RGBA2GRAY)`
(line 458) routes through the to-gray converter that accepts a 3- or
4-channel source (using the Mat's actual channel count) and throws its
assertion on anything else, in particular on 1-channel input; this
string stands for that thrown assertion message. -/
def cvtColorMsg : String := "cvtColor: COLOR_RGBA2GRAY expects a 3- or 4-channel source"

/-- `fallbackAlignment(srcMat)` (`answer-sheet-aligner.js` lines 452-537),
instrumented with the list of native allocations still live at the
return.  The `try` body allocates `gray`, converts to grayscale
(unconditionally `COLOR_RGBA2GRAY`, which accepts a 3- or 4-channel
source and faults on any other channel count, e.g. 1-channel),
allocates `binary`, `contours`, `hierarchy`, scans for the
max-area contour, throws `noFrameMsg` when none is found or its area is
below `rows*cols*0.1`, allocates `approx`, throws `notQuadMsg` unless
the approximation has exactly 4 vertices, and otherwise computes the
transform and warp (allocating `M` and the output) and deletes
`gray`, `binary`, `contours`, `hierarchy`, `approx`, `M` (lines 524-529).
The `catch` (lines 533-536) deletes nothing. -/
def fallbackAlignment (channels rows cols : Nat) (conts : List ContourData) :
    FbResult × List NativeRes :=
  let live1 := [NativeRes.fbGray]
  if channels ≠ 3 ∧ channels ≠ 4 then
    ({ success := false, alignedImage := none, error := some cvtColorMsg }, live1)
  else
    let live2 := live1 ++ [NativeRes.fbBinary, NativeRes.fbContours, NativeRes.fbHierarchy]
    let scan := maxContourLoop conts 0 none
    match scan.2 with
    | none =>
        ({ success := false, alignedImage := none, error := some noFrameMsg }, live2)
    | some mc =>
        if scan.1 < ((rows : ℚ) * (cols : ℚ)) / 10 then
          ({ success := false, alignedImage := none, error := some noFrameMsg }, live2)
        else
          let live3 := live2 ++ [NativeRes.fbApprox]
          if mc.approx.length ≠ 4 then
            ({ success := false, alignedImage := none, error := some notQuadMsg }, live3)
          else
            ({ success := true, alignedImage := some mc.approx, error := none },
              [NativeRes.fbAligned])

/-- Claim C7: the fallback aligner fails with the no-outer-frame error
exactly when no contour is found or the largest contour's area is below
10% of the frame area; past that gate it fails with the
not-quadrilateral error exactly when the 2%-perimeter approximation does
not have 4 vertices; and a success implies both gates were passed.  Both
failures are ordinary `{success: false, error}` results. -/
theorem fallbackAlignment_error_conditions :
    ∀ (rows cols : Nat) (conts : List ContourData),
      ((maxContourLoop conts 0 none).2 = none ∨
          (maxContourLoop conts 0 none).1 < ((rows : ℚ) * (cols : ℚ)) / 10 →
        (fallbackAlignment 4 rows cols conts).1 =
          { success := false, alignedImage := none, error := some noFrameMsg }) ∧
      (∀ mc : ContourData, (maxContourLoop conts 0 none).2 = some mc →
          ((rows : ℚ) * (cols : ℚ)) / 10 ≤ (maxContourLoop conts 0 none).1 →
          mc.approx.length ≠ 4 →
        (fallbackAlignment 4 rows cols conts).1 =
          { success := false, alignedImage := none, error := some notQuadMsg }) ∧
      ((fallbackAlignment 4 rows cols conts).1.success = true →
        ∃ mc : ContourData, (maxContourLoop conts 0 none).2 = some mc ∧
          ((rows : ℚ) * (cols : ℚ)) / 10 ≤ (maxContourLoop conts 0 none).1 ∧
          mc.approx.length = 4) := by
  intro rows cols conts
  refine ⟨?_, ?_, ?_⟩
  · intro h
    match hscan : (maxContourLoop conts 0 none).2 with
    | none => simp [fallbackAlignment, hscan]
    | some mc =>
        rcases h with h | h
        · rw [hscan] at h; exact absurd h (by simp)
        · simp [fallbackAlignment, hscan, h]
  · intro mc hscan harea happrox
    have hlt : ¬ (maxContourLoop conts 0 none).1 < ((rows : ℚ) * (cols : ℚ)) / 10 :=
      not_lt.mpr harea
    simp [fallbackAlignment, hscan, hlt, happrox]
  · intro hsucc
    match hscan : (maxContourLoop conts 0 none).2 with
    | none => simp [fallbackAlignment, hscan] at hsucc
    | some mc =>
        by_cases hlt : (maxContourLoop conts 0 none).1 < ((rows : ℚ) * (cols : ℚ)) / 10
        · simp [fallbackAlignment, hscan, hlt] at hsucc
        · by_cases happrox : mc.approx.length = 4
          · exact ⟨mc, rfl, not_lt.mp hlt, happrox⟩
          · simp [fallbackAlignment, hscan, hlt, happrox] at hsucc

/-- Claim C7 witness: a blank frame (no contours) fails with the
no-outer-frame error, and a large triangle-approximated contour fails
with the not-quadrilateral error. -/
theorem fallbackAlignment_error_conditions_witness :
    (fallbackAlignment 4 10 10 []).1 =
      { success := false, alignedImage := none, error := some noFrameMsg } ∧
    (fallbackAlignment 4 10 10
        [{ area := 50, approx := [⟨0, 0⟩, ⟨9, 0⟩, ⟨0, 9⟩] }]).1 =
      { success := false, alignedImage := none, error := some notQuadMsg } := by
  constructor
  · exact (fallbackAlignment_error_conditions 10 10 []).1 (Or.inl rfl)
  · exact (fallbackAlignment_error_conditions 10 10
      [{ area := 50, approx := [⟨0, 0⟩, ⟨9, 0⟩, ⟨0, 9⟩] }]).2.1
      { area := 50, approx := [⟨0, 0⟩, ⟨9, 0⟩, ⟨0, 9⟩] }
      (by rfl) (by norm_num [maxContourLoop]) (by decide)

/-- Claim C10 counterexample: the fallback is not doomed on every
non-4-channel raster.  `COLOR_RGBA2GRAY` accepts a 3-channel source, so
on a concrete 3-channel sample whose max contour covers half the frame
and approximates to 4 vertices, `fallbackAlignment` succeeds with no
error. -/
theorem fallbackAlignment_three_channel_succeeds :
    (fallbackAlignment 3 10 10
        [{ area := 50, approx := [⟨0, 0⟩, ⟨9, 0⟩, ⟨9, 9⟩, ⟨0, 9⟩] }]).1.success = true ∧
    (fallbackAlignment 3 10 10
        [{ area := 50, approx := [⟨0, 0⟩, ⟨9, 0⟩, ⟨9, 9⟩, ⟨0, 9⟩] }]).1.error = none := by
  constructor
  · norm_num [fallbackAlignment, maxContourLoop]
  · norm_num [fallbackAlignment, maxContourLoop]

/-- Claim C10 as amended: only a sample whose channel count the
hard-coded `COLOR_RGBA2GRAY` conversion rejects — 1-channel, in the
data model's {1, 3, 4} — makes `fallbackAlignment` fault there and
return `{success: false, error}` regardless of image content; 3-channel
input converts successfully. -/
theorem fallbackAlignment_one_channel_mismatch :
    ∀ (channels rows cols : Nat) (conts : List ContourData),
      channels = 1 →
      (fallbackAlignment channels rows cols conts).1 =
        { success := false, alignedImage := none, error := some cvtColorMsg } := by
  intro channels rows cols conts h
  subst h
  norm_num [fallbackAlignment]

/-- Claim C10 (amended) witness: a 1-channel sample gets the conversion
failure result even with a perfect quadrilateral contour. -/
theorem fallbackAlignment_one_channel_mismatch_witness :
    (fallbackAlignment 1 10 10
        [{ area := 50, approx := [⟨0, 0⟩, ⟨9, 0⟩, ⟨9, 9⟩, ⟨0, 9⟩] }]).1 =
      { success := false, alignedImage := none, error := some cvtColorMsg } :=
  fallbackAlignment_one_channel_mismatch 1 10 10
    [{ area := 50, approx := [⟨0, 0⟩, ⟨9, 0⟩, ⟨9, 9⟩, ⟨0, 9⟩] }] rfl

/-- A 3x3 projective transform matrix, the value produced by
`cv.getPerspectiveTransform` inside `calculatePerspectiveTransform`
(`answer-sheet-aligner.js` lines 545-550) and consumed by
`cv.warpPerspective` (lines 174-179). -/
structure Mat3 where
  m00 : ℚ
  m01 : ℚ
  m02 : ℚ
  m10 : ℚ
  m11 : ℚ
  m12 : ℚ
  m20 : ℚ
  m21 : ℚ
  m22 : ℚ
deriving DecidableEq, Repr

/-- Projective application of a `Mat3` to a point: `none` when the point
maps to the plane at infinity (zero denominator). -/
def hApply (H : Mat3) (x y : ℚ) : Option (ℚ × ℚ) :=
  let d := H.m20 * x + H.m21 * y + H.m22
  if d = 0 then none
  else some ((H.m00 * x + H.m01 * y + H.m02) / d,
             (H.m10 * x + H.m11 * y + H.m12) / d)

/-- The identity transform. -/
def idMat3 : Mat3 := ⟨1, 0, 0, 0, 1, 0, 0, 0, 1⟩

/-- Determinant of a `Mat3`, cofactor expansion along the first row. -/
def mat3Det (H : Mat3) : ℚ :=
  H.m00 * (H.m11 * H.m22 - H.m12 * H.m21)
    - H.m01 * (H.m10 * H.m22 - H.m12 * H.m20)
    + H.m02 * (H.m10 * H.m21 - H.m11 * H.m20)

/-- Inverse of a `Mat3` by the adjugate formula; `none` when singular.
`cv.warpPerspective` inverts the supplied matrix internally (its default
flags omit `WARP_INVERSE_MAP`), which this models. -/
def mat3Inv (H : Mat3) : Option Mat3 :=
  let d := mat3Det H
  if d = 0 then none
  else some
    { m00 := (H.m11 * H.m22 - H.m12 * H.m21) / d
      m01 := (H.m02 * H.m21 - H.m01 * H.m22) / d
      m02 := (H.m01 * H.m12 - H.m02 * H.m11) / d
      m10 := (H.m12 * H.m20 - H.m10 * H.m22) / d
      m11 := (H.m00 * H.m22 - H.m02 * H.m20) / d
      m12 := (H.m02 * H.m10 - H.m00 * H.m12) / d
      m20 := (H.m10 * H.m21 - H.m11 * H.m20) / d
      m21 := (H.m01 * H.m20 - H.m00 * H.m21) / d
      m22 := (H.m00 * H.m11 - H.m01 * H.m10) / d }

/-- The constraint system `cv.getPerspectiveTransform` solves when both
point quadruples are the axis-aligned unit square in canonical order:
the returned matrix must map each square corner to itself.  OpenCV
normalizes the solution with bottom-right entry 1, hence the `m22 = 1`
side condition in the theorem below. -/
def mapsUnitSquareToItself (H : Mat3) : Prop :=
  hApply H 0 0 = some (0, 0) ∧ hApply H 1 0 = some (1, 0) ∧
  hApply H 1 1 = some (1, 1) ∧ hApply H 0 1 = some (0, 1)

/-- A raster image for the warp model: dimensions plus an intensity
function over integer pixel coordinates. -/
structure QImg where
  width : Nat
  height : Nat
  pix : Int → Int → ℚ

/-- `cv.warpPerspective(src, dst, M, size)` (lines 174-179 and 516-521)
restricted to exact arithmetic: each destination pixel inside the output
size is inverse-mapped through `M`; when the preimage is an integer pixel
inside the source it is copied exactly, otherwise (interpolation or
out-of-range) the model yields the background value 0.  The claim under
check only concerns the exact integer-coordinate case. -/
def warpPerspective (src : QImg) (H : Mat3) (outW outH : Nat)
    (x y : Int) : ℚ :=
  if 0 ≤ x ∧ x < (outW : Int) ∧ 0 ≤ y ∧ y < (outH : Int) then
    match mat3Inv H with
    | none => 0
    | some Hi =>
        match hApply Hi (x : ℚ) (y : ℚ) with
        | none => 0
        | some uv =>
            if uv.1.den = 1 ∧ uv.2.den = 1 ∧
                0 ≤ uv.1.num ∧ uv.1.num < (src.width : Int) ∧
                0 ≤ uv.2.num ∧ uv.2.num < (src.height : Int) then
              src.pix uv.1.num uv.2.num
            else 0
  else 0

/-- Claim C9: the perspective transform computed from the unit square
mapped to itself is the identity matrix (any `m22`-normalized solution of
the correspondence constraints equals `idMat3`), and warping through the
identity reproduces every source pixel exactly at integer coordinates. -/
theorem perspective_identity_roundtrip :
    (∀ H : Mat3, H.m22 = 1 → mapsUnitSquareToItself H → H = idMat3) ∧
    (∀ (img : QImg) (x y : Int),
        0 ≤ x → x < (img.width : Int) → 0 ≤ y → y < (img.height : Int) →
        warpPerspective img idMat3 img.width img.height x y = img.pix x y) := by
  constructor
  · intro H h22 hmaps
    obtain ⟨h1, h2, h3, h4⟩ := hmaps
    rw [hApply] at h1 h2 h3 h4
    simp only [mul_zero, mul_one, zero_add, add_zero, h22] at h1 h2 h3 h4
    rw [if_neg one_ne_zero] at h1
    simp only [Option.some.injEq, Prod.mk.injEq, div_one] at h1
    obtain ⟨e02, e12⟩ := h1
    have hd2 : ¬ (H.m20 + 1 = 0) := by
      intro hz; rw [if_pos hz] at h2; exact Option.noConfusion h2
    rw [if_neg hd2] at h2
    simp only [Option.some.injEq, Prod.mk.injEq] at h2
    obtain ⟨e00, e10⟩ := h2
    rw [div_eq_iff hd2] at e00 e10
    have hd3 : ¬ (H.m20 + H.m21 + 1 = 0) := by
      intro hz; rw [if_pos hz] at h3; exact Option.noConfusion h3
    rw [if_neg hd3] at h3
    simp only [Option.some.injEq, Prod.mk.injEq] at h3
    obtain ⟨e0s, e1s⟩ := h3
    rw [div_eq_iff hd3] at e0s e1s
    have hd4 : ¬ (H.m21 + 1 = 0) := by
      intro hz; rw [if_pos hz] at h4; exact Option.noConfusion h4
    rw [if_neg hd4] at h4
    simp only [Option.some.injEq, Prod.mk.injEq] at h4
    obtain ⟨e01, e11⟩ := h4
    rw [div_eq_iff hd4] at e01 e11
    obtain ⟨a, b, c, d, e, f, g, h, i⟩ := H
    simp only at h22 e02 e12 e00 e10 e0s e1s e01 e11
    subst h22 e02 e12
    simp only [add_zero, one_mul, zero_add] at e00 e10 e0s e1s e01 e11
    rw [idMat3, Mat3.mk.injEq]
    refine ⟨by linarith, by linarith, rfl, by linarith, by linarith, rfl,
      by linarith, by linarith, rfl⟩
  · intro img x y hx hxw hy hyh
    have hinv : mat3Inv idMat3 = some idMat3 := by
      norm_num [mat3Inv, mat3Det, idMat3]
    have happ : hApply idMat3 (x : ℚ) (y : ℚ) = some ((x : ℚ), (y : ℚ)) := by
      norm_num [hApply, idMat3]
    have hden1 : ((x : ℚ)).den = 1 := Rat.den_intCast x
    have hden2 : ((y : ℚ)).den = 1 := Rat.den_intCast y
    have hnum1 : ((x : ℚ)).num = x := Rat.num_intCast x
    have hnum2 : ((y : ℚ)).num = y := Rat.num_intCast y
    have hc1 : 0 ≤ x ∧ x < (img.width : Int) ∧ 0 ≤ y ∧ y < (img.height : Int) :=
      ⟨hx, hxw, hy, hyh⟩
    have hc2 : ((x : ℚ)).den = 1 ∧ ((y : ℚ)).den = 1 ∧
        0 ≤ ((x : ℚ)).num ∧ ((x : ℚ)).num < (img.width : Int) ∧
        0 ≤ ((y : ℚ)).num ∧ ((y : ℚ)).num < (img.height : Int) := by
      rw [hden1, hden2, hnum1, hnum2]
      exact ⟨rfl, rfl, hx, hxw, hy, hyh⟩
    unfold warpPerspective
    rw [if_pos hc1, hinv]
    dsimp only
    rw [happ]
    dsimp only
    rw [if_pos hc2, hnum1, hnum2]

/-- Claim C9 witness: the identity matrix itself satisfies the unit-square
constraints (so the uniqueness theorem applies to it), and warping a
concrete 2x2 image through the identity reproduces a chosen pixel. -/
theorem perspective_identity_roundtrip_witness :
    idMat3 = idMat3 ∧
    warpPerspective ⟨2, 2, fun a b => (a : ℚ) + 2 * (b : ℚ)⟩ idMat3 2 2 1 1 =
      (1 : ℚ) + 2 * 1 := by
  constructor
  · exact perspective_identity_roundtrip.1 idMat3 rfl
      (by norm_num [mapsUnitSquareToItself, hApply, idMat3])
  · have := perspective_identity_roundtrip.2
      ⟨2, 2, fun a b => (a : ℚ) + 2 * (b : ℚ)⟩ 1 1
      (by decide) (by decide) (by decide) (by decide)
    simpa using this

/-- A decoded raster buffer (an OpenCV `Mat` or an HTML image element):
dimensions and channel count are all the orchestrator control flow
reads from it. -/
structure Img where
  width : Nat
  height : Nat
  channels : Nat
deriving DecidableEq, Repr

/-- Result record of `alignUserImage`
(`answer-sheet-aligner.js` lines 140, 187 and 191). -/
structure AlignResult where
  success : Bool
  alignedImage : Option Img
  error : Option String
deriving DecidableEq, Repr

/-- The mutable session fields of the `AnswerSheetAligner` instance
(`answer-sheet-aligner.js` lines 7-12): `templatePoints`, `templateSize`
and `isInitialized`, threaded explicitly. -/
structure AlignerState where
  templatePoints : List Point
  templateSize : Nat × Nat
  isInitialized : Bool
deriving DecidableEq, Repr

/-- Error message returned at line 140 of `answer-sheet-aligner.js`. -/
def notInitializedMsg : String := "对齐模块未初始化"

/-- Error message thrown at line 161 of `answer-sheet-aligner.js` when the
fallback also fails. -/
def alignFailedMsg : String := "图像对齐失败，请重新拍摄清晰的答题卡图片"

/-- Oracle bundle for one `alignUserImage` call: the outcomes of the
OpenCV-backed steps the JavaScript invokes (each may fault, modelled as
`Except.error` carrying the JS exception message).  `detect` and
`fallback` are total because `findLinesAndPoints` and
`fallbackAlignment` catch internally and return result records. -/
structure UserImageEnv where
  imread : Except String Img
  preprocess : Img → Except String Img
  detect : Img → DetectResult
  fallback : Img → AlignResult
  perspective : List Point → List Point → Except String Mat3
  warp : Img → Mat3 → Nat × Nat → Except String Img

/-- The `try` block of `alignUserImage`
(`answer-sheet-aligner.js` lines 143-187): read the image, preprocess,
detect; on detection failure run the fallback and throw `alignFailedMsg`
if it also failed, otherwise return the fallback result unchanged; on
detection success compute the transform against the stored template
points and warp to the stored template size. -/
def alignUserImageBody (env : UserImageEnv) (st : AlignerState) :
    Except String AlignResult :=
  match env.imread with
  | Except.error e => Except.error e
  | Except.ok srcMat =>
    match env.preprocess srcMat with
    | Except.error e => Except.error e
    | Except.ok binarySrc =>
      if (env.detect binarySrc).success = false ∨
          (env.detect binarySrc).points.length < 4 then
        if (env.fallback srcMat).success = false then Except.error alignFailedMsg
        else Except.ok (env.fallback srcMat)
      else
        match env.perspective (env.detect binarySrc).points st.templatePoints with
        | Except.error e => Except.error e
        | Except.ok m =>
          match env.warp srcMat m st.templateSize with
          | Except.error e => Except.error e
          | Except.ok alignedImg =>
              Except.ok { success := true, alignedImage := some alignedImg,
                          error := none }

/-- `alignUserImage(userImageElement)`
(`answer-sheet-aligner.js` lines 138-193): reject when the session is not
initialized (returning the session state untouched), otherwise run the
`try` body and convert any thrown fault into
`{success: false, alignedImage: null, error: message}` at the boundary
(lines 189-192).  No path assigns to the session fields, so the state is
returned unchanged. -/
def alignUserImage (env : UserImageEnv) (st : AlignerState) :
    AlignResult × AlignerState :=
  if st.isInitialized = false then
    ({ success := false, alignedImage := none, error := some notInitializedMsg }, st)
  else
    match alignUserImageBody env st with
    | Except.ok r => (r, st)
    | Except.error e =>
        ({ success := false, alignedImage := none, error := some e }, st)

theorem alignUserImageBody_ok_success (env : UserImageEnv) (st : AlignerState)
    (r : AlignResult) (h : alignUserImageBody env st = Except.ok r) :
    r.success = true := by
  unfold alignUserImageBody at h
  split at h
  · exact Except.noConfusion h
  · split at h
    · exact Except.noConfusion h
    · split at h
      · split at h
        · exact Except.noConfusion h
        · rename_i hfb
          injection h with h'
          subst h'
          simpa using hfb
      · split at h
        · exact Except.noConfusion h
        · split at h
          · exact Except.noConfusion h
          · injection h with h'
            subst h'
            rfl

/-- Claim C2: every fault raised inside the `alignUserImage` body is caught
at the call boundary and surfaced as
`{success: false, alignedImage: null, error: message}` with the session
untouched, and no failure result ever carries an image. -/
theorem alignUserImage_fault_boundary :
    ∀ (env : UserImageEnv) (st : AlignerState),
      (∀ e : String, st.isInitialized = true →
          alignUserImageBody env st = Except.error e →
          alignUserImage env st =
            ({ success := false, alignedImage := none, error := some e }, st)) ∧
      ((alignUserImage env st).1.success = false →
          (alignUserImage env st).1.alignedImage = none ∧
          (alignUserImage env st).1.error ≠ none) := by
  intro env st
  constructor
  · intro e hinit hbody
    unfold alignUserImage
    rw [hinit]
    simp [hbody]
  · intro hfail
    unfold alignUserImage at hfail ⊢
    by_cases hinit : st.isInitialized = false
    · simp [hinit]
    · rw [if_neg hinit] at hfail ⊢
      match hbody : alignUserImageBody env st with
      | Except.error e => simp [hbody]
      | Except.ok r =>
          rw [hbody] at hfail
          exact absurd (alignUserImageBody_ok_success env st r hbody)
            (by simpa using hfail)

/-- Claim C8: calling `alignUserImage` on an uninitialized session returns
the error result and leaves every session field exactly unchanged. -/
theorem alignUserImage_requires_ready :
    ∀ (env : UserImageEnv) (st : AlignerState),
      st.isInitialized = false →
      alignUserImage env st =
        ({ success := false, alignedImage := none,
           error := some notInitializedMsg }, st) := by
  intro env st h
  unfold alignUserImage
  rw [h]
  rfl

/-- A concrete initialized session used by the witnesses. -/
def stReady : AlignerState :=
  { templatePoints := [⟨0, 0⟩, ⟨800, 0⟩, ⟨800, 600⟩, ⟨0, 600⟩]
    templateSize := (800, 600)
    isInitialized := true }

/-- A concrete fresh (uninitialized) session used by the witnesses. -/
def stFresh : AlignerState :=
  { templatePoints := [], templateSize := (0, 0), isInitialized := false }

/-- A concrete oracle bundle whose image read faults immediately. -/
def imreadFailEnv : UserImageEnv :=
  { imread := Except.error "imread fault"
    preprocess := fun _ => Except.error "unused"
    detect := fun _ => { success := false, points := [] }
    fallback := fun _ => { success := false, alignedImage := none, error := some "unused" }
    perspective := fun _ _ => Except.error "unused"
    warp := fun _ _ _ => Except.error "unused" }

/-- Claim C2 witness: with a faulting image read and a ready session, the
call returns the tagged failure result and the untouched state. -/
theorem alignUserImage_fault_boundary_witness :
    alignUserImage imreadFailEnv stReady =
      ({ success := false, alignedImage := none, error := some "imread fault" },
        stReady) :=
  (alignUserImage_fault_boundary imreadFailEnv stReady).1 "imread fault" rfl rfl

/-- Claim C8 witness: an uninitialized session yields the not-initialized
error result with the state unchanged. -/
theorem alignUserImage_requires_ready_witness :
    alignUserImage imreadFailEnv stFresh =
      ({ success := false, alignedImage := none,
         error := some notInitializedMsg }, stFresh) :=
  alignUserImage_requires_ready imreadFailEnv stFresh rfl

/-- Oracle bundle for one `initializeWithTemplate` call. -/
structure TemplateEnv where
  imread : Except String Img
  preprocess : Img → Except String Img
  detect : Img → DetectResult

/-- Modelled from the spec: `this.getFallbackPoints(templateMat)` is called
at line 110 of `answer-sheet-aligner.js` but its definition is not under
`src/`; the spec (sections 4.5 and 4.6) says the degraded point set is
"the four geometric corners of the template image", in the canonical
order (0,0), (W,0), (W,H), (0,H). -/
def getFallbackPoints (templateMat : Img) : List Point :=
  [⟨0, 0⟩, ⟨(templateMat.width : ℚ), 0⟩,
   ⟨(templateMat.width : ℚ), (templateMat.height : ℚ)⟩,
   ⟨0, (templateMat.height : ℚ)⟩]

/-- `initializeWithTemplate(templateImage)`
(`answer-sheet-aligner.js` lines 19-131): record the template size from
the supplied element, read it into a `Mat`, preprocess, detect features;
when detection reports failure or fewer than 4 points fall back to
`getFallbackPoints`, then mark the session initialized and return
`true`.  Any fault before that point is caught (lines 125-130), setting
`isInitialized = false` and returning `false`.  The OpenCV-readiness
checks at lines 26-52 are modelled as passing (the library is loaded). -/
def initializeWithTemplate (env : TemplateEnv) (tmpl : Img)
    (st : AlignerState) : Bool × AlignerState :=
  let st1 : AlignerState := { st with templateSize := (tmpl.width, tmpl.height) }
  match env.imread with
  | Except.error _ => (false, { st1 with isInitialized := false })
  | Except.ok templateMat =>
    match env.preprocess templateMat with
    | Except.error _ => (false, { st1 with isInitialized := false })
    | Except.ok binaryTemplate =>
      let templateResult := env.detect binaryTemplate
      let pts :=
        if templateResult.success = false ∨ templateResult.points.length < 4
        then getFallbackPoints templateMat
        else templateResult.points
      (true, { st1 with templatePoints := pts, isInitialized := true })

/-- Claim C1: when template feature detection fails (no success flag or
fewer than 4 points) but reading and preprocessing went through,
`initializeWithTemplate` stores the four geometric corners of the
template image as the session's point set and still completes with the
session ready, returning `true`. -/
theorem initializeWithTemplate_corner_fallback :
    ∀ (env : TemplateEnv) (tmpl : Img) (st : AlignerState) (mat bin : Img),
      env.imread = Except.ok mat →
      env.preprocess mat = Except.ok bin →
      ((env.detect bin).success = false ∨ (env.detect bin).points.length < 4) →
      initializeWithTemplate env tmpl st =
        (true, { templatePoints := getFallbackPoints mat,
                 templateSize := (tmpl.width, tmpl.height),
                 isInitialized := true }) := by
  intro env tmpl st mat bin h1 h2 h3
  unfold initializeWithTemplate
  simp only [h1, h2]
  simp [h3]

/-- A concrete template oracle bundle whose detection finds nothing. -/
def tmplDetectFailEnv : TemplateEnv :=
  { imread := Except.ok { width := 800, height := 600, channels := 4 }
    preprocess := fun m => Except.ok m
    detect := fun _ => { success := false, points := [] } }

/-- Claim C1 witness: on a concrete 800x600 template whose detection
fails, initialization succeeds and stores the four corners. -/
theorem initializeWithTemplate_corner_fallback_witness :
    initializeWithTemplate tmplDetectFailEnv
        { width := 800, height := 600, channels := 4 } stFresh =
      (true,
        { templatePoints :=
            getFallbackPoints { width := 800, height := 600, channels := 4 },
          templateSize := (800, 600),
          isInitialized := true }) :=
  initializeWithTemplate_corner_fallback tmplDetectFailEnv
    { width := 800, height := 600, channels := 4 } stFresh
    { width := 800, height := 600, channels := 4 }
    { width := 800, height := 600, channels := 4 }
    rfl rfl (Or.inl rfl)

/-- The two top-level native allocations of `alignUserImage` that the code
is responsible for on the fallback path, plus the primary-path ones. -/
inductive UserRes where
  | srcMat
  | binarySrc
  | transformM
  | alignedImg
deriving DecidableEq, Repr

/-- Allocation ledger of one `alignUserImage` call in which `cv.imread`
and the preprocessing succeed (`answer-sheet-aligner.js` lines 147-187):
`srcMat` and `binarySrc` are allocated up front; on the primary path
lines 182-184 delete `srcMat`, `binarySrc` and the transform before
returning the output image; on the fallback path the function returns
`fallbackResult` directly (line 164) or falls into the catch block
(lines 189-192), and in neither case does any `delete()` of `srcMat` or
`binarySrc` run.  The pair component is the returned success flag. -/
def alignUserImageLedger (detectOk fbSuccess : Bool) : List UserRes × Bool :=
  if detectOk = false then
    if fbSuccess then ([UserRes.srcMat, UserRes.binarySrc], true)
    else ([UserRes.srcMat, UserRes.binarySrc], false)
  else
    ([UserRes.alignedImg], true)

/-- Claim C3 is refuted by the code: on the fallback path that throws the
not-quadrilateral error, `fallbackAlignment` reaches its catch block with
`gray`, `binary`, `contours`, `hierarchy` and `approx` all still
allocated (the deletes at lines 524-529 are skipped and the catch frees
nothing), and a fallback-path `alignUserImage` call returns with
`srcMat` and `binarySrc` never deleted even on success. -/
theorem fallbackAlignment_leaks_intermediates :
    (fallbackAlignment 4 10 10
        [{ area := 50, approx := [⟨0, 0⟩, ⟨9, 0⟩, ⟨0, 9⟩] }]).2 =
      [NativeRes.fbGray, NativeRes.fbBinary, NativeRes.fbContours,
       NativeRes.fbHierarchy, NativeRes.fbApprox] ∧
    (fallbackAlignment 4 10 10
        [{ area := 50, approx := [⟨0, 0⟩, ⟨9, 0⟩, ⟨0, 9⟩] }]).1.success = false ∧
    (alignUserImageLedger false true).2 = true ∧
    (alignUserImageLedger false true).1 = [UserRes.srcMat, UserRes.binarySrc] := by
  refine ⟨by norm_num [fallbackAlignment, maxContourLoop],
    by norm_num [fallbackAlignment, maxContourLoop], by rfl, by rfl⟩

/-- Claim C5 witness: instantiating the argmax theorem on the concrete
count list {2, 5, 3} produces an index with the stated properties. -/
theorem selectBestBinary_first_argmax_witness :
    ∃ (i : Nat) (h : i < ([0, 1, 2] : List Nat).length),
      selectBestBinary [0, 1, 2] (fun k => List.getD [2, 5, 3] k 0) =
        some (([0, 1, 2] : List Nat).get ⟨i, h⟩) ∧
      (∀ (j : Nat) (hj : j < ([0, 1, 2] : List Nat).length),
          List.getD [2, 5, 3] (([0, 1, 2] : List Nat).get ⟨j, hj⟩) 0 ≤
            List.getD [2, 5, 3] (([0, 1, 2] : List Nat).get ⟨i, h⟩) 0) ∧
      (∀ (j : Nat) (hj : j < i),
          List.getD [2, 5, 3] (([0, 1, 2] : List Nat).get ⟨j, Nat.lt_trans hj h⟩) 0 <
            List.getD [2, 5, 3] (([0, 1, 2] : List Nat).get ⟨i, h⟩) 0) :=
  selectBestBinary_first_argmax.1 [0, 1, 2]
    (fun k => List.getD [2, 5, 3] k 0) (by decide)
